import Mathlib

/-! # Chat session controller of the document-insight client

A shallow embedding of `src/frontend/src/App.jsx`: the React state of `App`, the two
event handlers `handleSetApiKey` and `handleChatSubmit` (their synchronous part up to the
`await`, and the continuation run when the awaited `fetch` settles), and the event loop
around them (typing, clicks, connectivity notifications, replies, timers).

JavaScript strings are modelled as Lean strings, the body of a request as the text that
`JSON.stringify` returns. The text of engine-raised errors
(`TypeError` messages) is not fixed by the language, so it is a parameter (`Runtime`);
the message carried by a rejected `fetch` or a rejected `response.json()` is part of the
reply.
-/

namespace DocInsight

/-! ## JavaScript values -/

/-- A JavaScript number as the program observes it: whether it is falsy (`0`, `-0`), its
`ToString` rendering, and its `JSON.stringify` rendering (`null` when it is not finite). -/
structure JsNum where
  isZero : Bool
  text : String
  json : String

/-- JavaScript values that can occur in the state of `App`: `undefined`, and whatever
`JSON.parse` produces. The fields of an object are its own properties, each key once, in
the order the engine enumerates them. -/
inductive JsVal where
  | undefined : JsVal
  | null : JsVal
  | bool (b : Bool) : JsVal
  | num (n : JsNum) : JsVal
  | str (s : String) : JsVal
  | arr (items : List JsVal) : JsVal
  | obj (fields : List (String × JsVal)) : JsVal

/-- Messages of the `TypeError`s the engine raises. -/
structure Runtime where
  /-- Reading property `p` of `null` or `undefined`. -/
  nullReadMsg : String → String
  /-- An object that has no callable `toString`/`valueOf` is converted to a string. -/
  toPrimitiveMsg : String

/-- Code points removed by `String.prototype.trim`: ECMAScript WhiteSpace and
LineTerminator. -/
def isTrimChar (c : Char) : Bool :=
  let n := c.toNat
  n == 0x09 || n == 0x0A || n == 0x0B || n == 0x0C || n == 0x0D || n == 0x20 ||
  n == 0xA0 || n == 0x1680 || (0x2000 ≤ n && n ≤ 0x200A) || n == 0x2028 ||
  n == 0x2029 || n == 0x202F || n == 0x205F || n == 0x3000 || n == 0xFEFF

/-- The method `String.prototype.trim`. -/
def trim (s : String) : String :=
  String.mk ((s.data.dropWhile isTrimChar).reverse.dropWhile isTrimChar).reverse

/-- Truthiness (`ToBoolean`). -/
def truthy : JsVal → Bool
  | .undefined => false
  | .null => false
  | .bool b => b
  | .num n => !n.isZero
  | .str s => s != ""
  | .arr _ => true
  | .obj _ => true

/-- Reading `v.p` for a property name `p` that no built-in prototype defines (as `error`
and `response`): a `TypeError` on `null`/`undefined`, the own property of an object,
`undefined` otherwise. -/
def getField (rt : Runtime) (v : JsVal) (p : String) : Except String JsVal :=
  match v with
  | .undefined => .error (rt.nullReadMsg p)
  | .null => .error (rt.nullReadMsg p)
  | .obj fields => .ok ((fields.lookup p).getD .undefined)
  | _ => .ok .undefined

mutual
/-- The abstract operation `ToString`; an object parsed from JSON converts to
`[object Object]` unless an own `toString` property shadows the inherited method, an
array converts through `join`. -/
def toStr (rt : Runtime) : JsVal → Except String String
  | .undefined => .ok "undefined"
  | .null => .ok "null"
  | .bool b => .ok (if b then "true" else "false")
  | .num n => .ok n.text
  | .str s => .ok s
  | .arr items => joinItems rt items
  | .obj fields =>
    if (fields.map Prod.fst).contains "toString" then .error rt.toPrimitiveMsg
    else .ok "[object Object]"
/-- The method `Array.prototype.join` with the default separator. -/
def joinItems (rt : Runtime) : List JsVal → Except String String
  | [] => .ok ""
  | x :: xs =>
    match (match x with
      | .undefined => Except.ok ""
      | .null => Except.ok ""
      | y => toStr rt y) with
    | .error m => .error m
    | .ok a =>
      match xs with
      | [] => .ok a
      | _ :: _ =>
        match joinItems rt xs with
        | .error m => .error m
        | .ok b => .ok (a ++ "," ++ b)
end

/-! ## `JSON.stringify` -/

/-- A lower-case hexadecimal digit. -/
def hexDigit (n : Nat) : Char :=
  if n < 10 then Char.ofNat (48 + n) else Char.ofNat (87 + n)

/-- How `QuoteJSONString` writes one code point. -/
def quoteChar (c : Char) : String :=
  let n := c.toNat
  if n == 0x08 then "\\b"
  else if n == 0x09 then "\\t"
  else if n == 0x0A then "\\n"
  else if n == 0x0C then "\\f"
  else if n == 0x0D then "\\r"
  else if n == 0x22 then "\\\""
  else if n == 0x5C then "\\\\"
  else if n < 0x20 then "\\u00" ++ String.mk [hexDigit (n / 16), hexDigit (n % 16)]
  else String.mk [c]

/-- The abstract operation `QuoteJSONString`. -/
def quoteJSONString (s : String) : String :=
  "\"" ++ String.join (s.data.map quoteChar) ++ "\""

/-- The JSON text of a member with key `k` whose value has the text `t`. -/
def memberText (k t : String) : String :=
  quoteJSONString k ++ ":" ++ t

/-- The JSON text of an object with the given member texts. -/
def objectText (members : List String) : String :=
  "\x7b" ++ String.intercalate "," members ++ "\x7d"

/-- The JSON text of an array with the given element texts. -/
def arrayText (elements : List String) : String :=
  "[" ++ String.intercalate "," elements ++ "]"

mutual
/-- The function `JSON.stringify` with one argument; `none` is `undefined`. A member whose
value is `undefined` is left out, an element that is `undefined` is written `null`. -/
def jsonStringify : JsVal → Option String
  | .undefined => none
  | .null => some "null"
  | .bool b => some (if b then "true" else "false")
  | .num n => some n.json
  | .str s => some (quoteJSONString s)
  | .arr items => some (arrayText (elementTexts items))
  | .obj fields => some (objectText (memberTexts fields))
/-- The texts of the elements of an array. -/
def elementTexts : List JsVal → List String
  | [] => []
  | x :: xs => (jsonStringify x).getD "null" :: elementTexts xs
/-- The texts of the members of an object. -/
def memberTexts : List (String × JsVal) → List String
  | [] => []
  | (k, v) :: rest =>
    match jsonStringify v with
    | none => memberTexts rest
    | some t => memberText k t :: memberTexts rest
end

/-! ## Rendering a value as a React child -/

mutual
/-- Whether React accepts the value as a child: a plain object is refused (the render
throws), an array is rendered element by element, every other value is rendered as text or
as nothing. -/
def childRenders : JsVal → Bool
  | .obj _ => false
  | .arr items => childrenRender items
  | _ => true
/-- Whether React accepts every element of an array of children. -/
def childrenRender : List JsVal → Bool
  | [] => true
  | x :: xs => childRenders x && childrenRender xs
end

/-! ## The state of `App` and what the network gives back -/

/-- One entry of `chatHistory`, as built by `handleChatSubmit`. -/
structure Turn where
  user_query : String
  ai_response : JsVal

/-- The `useState` cells of `App`. -/
structure State where
  documentText : String
  userQuery : String
  chatHistory : List Turn
  loading : Bool
  error : String
  apiKey : String
  apiKeySetSuccess : Bool
  online : Bool

/-- The state of the first render; `navigatorOnLine` is `navigator.onLine`. -/
def State.initial (navigatorOnLine : Bool) : State :=
  { documentText := "", userQuery := "", chatHistory := [], loading := false, error := "",
    apiKey := "", apiKeySetSuccess := false, online := navigatorOnLine }

/-- A `POST` issued through `fetch`: the URL and the `body` option, the result of
`JSON.stringify` (`none` for `undefined`). -/
structure Request where
  url : String
  body : Option String

/-- The JSX of one entry of the chat history: `ai_response` is rendered as a child when it
is truthy, the placeholder otherwise; `false` when the render throws. -/
def messageRenders (message : Turn) : Bool :=
  if truthy message.ai_response then childRenders message.ai_response else true

/-- How an awaited `fetch` settles: it rejects with an error whose `message` is `msg`, or
it resolves to a response with a status and a body; `json` is what `response.json()`
settles to (`.error msg` when it rejects with an error whose `message` is `msg`). -/
inductive FetchResult where
  | rejected (msg : String) : FetchResult
  | response (status : Nat) (json : Except String JsVal) : FetchResult

/-- The getter `response.ok`. -/
def responseOk (status : Nat) : Bool :=
  200 ≤ status && status ≤ 299

/-- The statement under `if (!response.ok)`, shared by both handlers: the message of the
error it throws. -/
def notOkMessage (rt : Runtime) (status : Nat) (json : Except String JsVal) : String :=
  match json with
  | .error m => m
  | .ok errorData =>
    match getField rt errorData "error" with
    | .error m => m
    | .ok e =>
      match toStr rt (if truthy e then e else .str ("HTTP error! status: " ++ toString status)) with
      | .error m => m
      | .ok m => m

/-! ## `handleSetApiKey` -/

/-- The part of `handleSetApiKey` that runs before the `await`: the next state and the
request issued, if any. -/
def handleSetApiKey (s : State) : State × Option Request :=
  if trim s.apiKey == "" then
    ({ s with error := "API Key cannot be empty." }, none)
  else
    ({ s with loading := true, error := "", apiKeySetSuccess := false },
     some { url := "/api/set-api-key",
            body := jsonStringify
              (.obj [("key_name", .str "my_llm_key"), ("key_value", .str s.apiKey)]) })

/-- The `try` block of `handleSetApiKey` from the `await` on: `.error m` when an error with
message `m` reaches the `catch`. -/
def awaitSetApiKey (rt : Runtime) (res : FetchResult) : Except String Unit :=
  match res with
  | .rejected m => .error m
  | .response status json =>
    if !responseOk status then .error (notOkMessage rt status json) else .ok ()

/-- The rest of `handleSetApiKey` once the `fetch` has settled: the next state, and whether
a 3000 ms timer was started. -/
def settleSetApiKey (rt : Runtime) (res : FetchResult) (s : State) : State × Bool :=
  match awaitSetApiKey rt res with
  | .ok () => ({ s with apiKeySetSuccess := true, loading := false }, true)
  | .error m => ({ s with error := "Failed to set API Key: " ++ m, loading := false }, false)

/-! ## `handleChatSubmit` -/

/-- The argument of `JSON.stringify` in `handleChatSubmit`. -/
def chatRequestBody (currentDocument currentQuery : String) (newChatHistory : List Turn) :
    JsVal :=
  .obj [("document_text", .str currentDocument),
        ("user_query", .str currentQuery),
        ("chat_history", .arr (newChatHistory.map fun item =>
          .obj [("user_query", .str item.user_query), ("ai_response", item.ai_response)]))]

/-- The part of `handleChatSubmit` that runs before the `await`: the next state and the
request issued, if any. -/
def handleChatSubmit (s : State) : State × Option Request :=
  if trim s.documentText == "" || trim s.userQuery == "" then
    ({ s with error := "Please paste a document and enter a query." }, none)
  else if !s.online then
    ({ s with error := "No internet connection detected. Please check your network." }, none)
  else
    let currentQuery := s.userQuery
    let currentDocument := s.documentText
    let newChatHistory := s.chatHistory ++ [{ user_query := currentQuery, ai_response := .null }]
    ({ s with loading := true, error := "", userQuery := "", chatHistory := newChatHistory },
     some { url := "/api/chat",
            body := jsonStringify
              (chatRequestBody currentDocument currentQuery newChatHistory) })

/-- The `try` block of `handleChatSubmit` from the `await` up to `data`: `.ok data`, or
`.error m` when an error with message `m` reaches the `catch`. -/
def awaitChat (rt : Runtime) (res : FetchResult) : Except String JsVal :=
  match res with
  | .rejected m => .error m
  | .response status json =>
    if !responseOk status then .error (notOkMessage rt status json) else json

/-- The updater passed to `setChatHistory` on success. React runs it while rendering, outside
the handler's `try`; `none` when it throws (`prevHistory` empty, or `data` is `null`). -/
def updateLast (rt : Runtime) (data : JsVal) (prevHistory : List Turn) : Option (List Turn) :=
  match prevHistory[prevHistory.length - 1]? with
  | none => none
  | some last =>
    match getField rt data "response" with
    | .error _ => none
    | .ok r => some (prevHistory.set (prevHistory.length - 1) { last with ai_response := r })

/-- The updater passed to `setChatHistory` in the `catch` block. -/
def sliceOffLast (prevHistory : List Turn) : List Turn :=
  prevHistory.take (prevHistory.length - 1)

/-- The rest of `handleChatSubmit` once the `fetch` has settled, and the render that
follows; `none` when that render throws, which unmounts `App`: the success updater throws,
or the entry it wrote is refused as a child. The other entries are those of the render
before, which went through. -/
def settleChat (rt : Runtime) (res : FetchResult) (s : State) : Option State :=
  match awaitChat rt res with
  | .ok data =>
    match updateLast rt data s.chatHistory with
    | none => none
    | some updatedHistory =>
      if updatedHistory.getLast?.all messageRenders then
        some { s with chatHistory := updatedHistory, loading := false }
      else none
  | .error m =>
    some { s with error := "Failed to get insights: " ++ m,
                  chatHistory := sliceOffLast s.chatHistory, loading := false }

/-! ## The event loop around the handlers -/

/-- A handler suspended at its `await`, with the request it issued; for `handleChatSubmit`
also the local `currentQuery`. -/
inductive Pending where
  | setApiKey (req : Request) : Pending
  | chat (req : Request) (currentQuery : String) : Pending

/-- The request a suspended handler issued. -/
def Pending.request : Pending → Request
  | .setApiKey req => req
  | .chat req _ => req

/-- The mounted `App` and its surroundings: requests not yet settled, the due times (ms) of
the `setTimeout` callbacks not yet run, and the clock. -/
structure World where
  ui : State
  inflight : List Pending
  timers : List Nat
  now : Nat

/-- The world just after the first render. -/
def World.initial (navigatorOnLine : Bool) : World :=
  { ui := State.initial navigatorOnLine, inflight := [], timers := [], now := 0 }

/-- What can happen to the mounted `App`. -/
inductive Event where
  /-- The `onChange` of the document textarea. -/
  | changeDocument (value : String) : Event
  /-- The `onChange` of the query input. -/
  | changeQuery (value : String) : Event
  /-- The `onChange` of the API key input. -/
  | changeApiKey (value : String) : Event
  /-- A click on the "Set API Key" button. -/
  | clickSetApiKey : Event
  /-- A click on the "Get Insights" button, or Enter in the query input. -/
  | submitChat : Event
  /-- The window event `online`. -/
  | online : Event
  /-- The window event `offline`. -/
  | offline : Event
  /-- The `fetch` of the request at position `i` of `inflight` settles. -/
  | settle (i : Nat) (res : FetchResult) : Event
  /-- The timer at position `i` of `timers` runs its callback. -/
  | timeout (i : Nat) : Event
  /-- Time passes. -/
  | advance (dt : Nat) : Event

/-- One event. Every input and button carries `disabled` while `loading` holds, so the
user events do nothing then. `none` when `App` is unmounted by an error thrown while
rendering. -/
def step (rt : Runtime) (w : World) (e : Event) : Option World :=
  match e with
  | .changeDocument v =>
    if w.ui.loading then some w else some { w with ui := { w.ui with documentText := v } }
  | .changeQuery v =>
    if w.ui.loading then some w else some { w with ui := { w.ui with userQuery := v } }
  | .changeApiKey v =>
    if w.ui.loading then some w else some { w with ui := { w.ui with apiKey := v } }
  | .clickSetApiKey =>
    if w.ui.loading then some w else
      match handleSetApiKey w.ui with
      | (ui, none) => some { w with ui := ui }
      | (ui, some req) => some { w with ui := ui, inflight := w.inflight ++ [.setApiKey req] }
  | .submitChat =>
    if w.ui.loading then some w else
      match handleChatSubmit w.ui with
      | (ui, none) => some { w with ui := ui }
      | (ui, some req) =>
        some { w with ui := ui, inflight := w.inflight ++ [.chat req w.ui.userQuery] }
  | .online => some { w with ui := { w.ui with online := true } }
  | .offline => some { w with ui := { w.ui with online := false } }
  | .settle i res =>
    match w.inflight[i]? with
    | none => some w
    | some (.setApiKey _) =>
      match settleSetApiKey rt res w.ui with
      | (ui, true) =>
        some { w with ui := ui, inflight := w.inflight.eraseIdx i,
                      timers := w.timers ++ [w.now + 3000] }
      | (ui, false) => some { w with ui := ui, inflight := w.inflight.eraseIdx i }
    | some (.chat _ _) =>
      match settleChat rt res w.ui with
      | none => none
      | some ui => some { w with ui := ui, inflight := w.inflight.eraseIdx i }
  | .timeout i =>
    match w.timers[i]? with
    | none => some w
    | some due =>
      if due ≤ w.now then
        some { w with ui := { w.ui with apiKeySetSuccess := false },
                      timers := w.timers.eraseIdx i }
      else some w
  | .advance dt => some { w with now := w.now + dt }

/-- Run a sequence of events from `w`. -/
def run (rt : Runtime) (w : World) : List Event → Option World
  | [] => some w
  | e :: es =>
    match step rt w e with
    | none => none
    | some w' => run rt w' es

/-- The worlds reachable from the first render through events satisfying `allowed`. -/
inductive Reachable (rt : Runtime) (allowed : Event → Prop) : World → Prop where
  | initial (navigatorOnLine : Bool) : Reachable rt allowed (World.initial navigatorOnLine)
  | next {w w' : World} (e : Event) :
    Reachable rt allowed w → allowed e → step rt w e = some w' → Reachable rt allowed w'

/-- Whether a value is `null`. -/
def isNull : JsVal → Bool
  | .null => true
  | _ => false

/-- The number of turns whose `ai_response` is `null`. -/
def nullCount (h : List Turn) : Nat :=
  (h.filter fun t => isNull t.ai_response).length

/-- An event that is not a 2xx reply whose `response` field is `null`. -/
def noNullAnswer (rt : Runtime) (e : Event) : Prop :=
  ∀ i status data, e = .settle i (.response status (.ok data)) → responseOk status = true →
    getField rt data "response" ≠ .ok .null

/-- The messages of V8, for concrete runs. -/
def v8 : Runtime :=
  { nullReadMsg := fun p => "Cannot read properties of null (reading \x27" ++ p ++ "\x27)",
    toPrimitiveMsg := "Cannot convert object to primitive value" }

/-! ## Auxiliary definitions for the statements -/

/-- The `fetch` rejected, or its response has a non-2xx status. -/
def FetchResult.failed : FetchResult → Bool
  | .rejected _ => true
  | .response status _ => !responseOk status

/-- The state of the scenario of the specification: a document and a question typed in,
nothing asked yet. -/
def scenario (isOnline : Bool) : State :=
  { State.initial isOnline with documentText := "Deep learning paper...", userQuery := "Summarize" }

/-- A state with one completed turn and a new question typed in. -/
def secondQuestion : State :=
  { State.initial true with
    documentText := "Deep learning paper...", userQuery := " What is dropout? ",
    chatHistory := [{ user_query := "Summarize", ai_response := .str "This paper discusses..." }] }

/-- The invariant of the event loop, for a property `P` of completed conversations: either
nothing is in flight and `loading` is off, or exactly one request is in flight and `loading`
is on; when that request is a chat submission, the conversation is a completed conversation
followed by the pending turn of that submission. -/
def Phase (P : List Turn → Prop) (w : World) : Prop :=
  (w.ui.loading = false ∧ w.inflight = [] ∧ P w.ui.chatHistory) ∨
  (w.ui.loading = true ∧ ∃ req, w.inflight = [.setApiKey req] ∧ P w.ui.chatHistory) ∨
  (w.ui.loading = true ∧ ∃ req q c, w.inflight = [.chat req q] ∧
    w.ui.chatHistory = c ++ [{ user_query := q, ai_response := .null }] ∧ P c)

/-- The JSON text of one entry of `chat_history` in the request: the member `user_query`,
then the member `ai_response` unless the turn's `ai_response` is `undefined`. -/
def entryText (t : Turn) : String :=
  objectText (memberText "user_query" (quoteJSONString t.user_query) ::
    match jsonStringify t.ai_response with
    | none => []
    | some a => [memberText "ai_response" a])

/-- A first question answered by a 200 reply `{}`, then a second question submitted. -/
def emptyAnswerThenAskAgain : List Event :=
  [.changeDocument "Deep learning paper...", .changeQuery "Summarize", .submitChat,
   .settle 0 (.response 200 (.ok (.obj []))),
   .changeQuery "What is dropout?", .submitChat]

/-- A conversation none of whose turns has `ai_response = null`. -/
def Answered (c : List Turn) : Prop :=
  ∀ t ∈ c, isNull t.ai_response = false

/-- A first question answered by a 200 reply with `response: null`, then a second question
submitted. -/
def nullAnswerThenAskAgain : List Event :=
  [.changeDocument "Deep learning paper...", .changeQuery "Summarize", .submitChat,
   .settle 0 (.response 200 (.ok (.obj [("response", .null)]))),
   .changeQuery "What is dropout?", .submitChat]

/-- A question submitted and not yet answered. -/
def askOnce : List Event :=
  [.changeDocument "Deep learning paper...", .changeQuery "Summarize", .submitChat]

/-- The world after `askOnce`. -/
def askedOnce : World :=
  { ui := { documentText := "Deep learning paper...", userQuery := "",
            chatHistory := [{ user_query := "Summarize", ai_response := .null }],
            loading := true, error := "", apiKey := "", apiKeySetSuccess := false,
            online := true },
    inflight := [.chat { url := "/api/chat",
                         body := jsonStringify (chatRequestBody "Deep learning paper..." "Summarize"
                           [{ user_query := "Summarize", ai_response := .null }]) } "Summarize"],
    timers := [], now := 0 }

/-- A key set successfully at time 0 and again at time 2500. -/
def setKeyTwice : List Event :=
  [.changeApiKey "sk-test", .clickSetApiKey, .settle 0 (.response 200 (.ok (.obj []))),
   .advance 2500, .clickSetApiKey, .settle 0 (.response 204 (.error "Unexpected end of JSON input"))]

/-- A world in which a key has been typed and nothing is in flight. -/
def keyTyped : World :=
  { World.initial true with ui := { State.initial true with apiKey := "sk-test" } }

/-! ## The synchronous part of `handleChatSubmit` -/

/-- An accepted submission: both guards of `handleChatSubmit` are passed. -/
lemma handleChatSubmit_accepted (s : State) (hd : trim s.documentText ≠ "")
    (hq : trim s.userQuery ≠ "") (ho : s.online = true) :
    handleChatSubmit s =
      ({ s with loading := true, error := "", userQuery := "",
                chatHistory := s.chatHistory ++ [{ user_query := s.userQuery, ai_response := .null }] },
       some { url := "/api/chat",
              body := jsonStringify (chatRequestBody s.documentText s.userQuery
                (s.chatHistory ++ [{ user_query := s.userQuery, ai_response := .null }])) }) := by
  simp [handleChatSubmit, hd, hq, ho]

/-- C1: for a document and a query that are both non-empty after trimming, while online,
`handleChatSubmit` sets the conversation, at the moment it issues the `/api/chat` request, to
the old conversation followed by the one new turn `{user_query, ai_response: null}`; the
length grows by exactly one and the old turns stay first, in the same order. -/
theorem handleChatSubmit_appends_one_pending_turn (s : State)
    (hd : trim s.documentText ≠ "") (hq : trim s.userQuery ≠ "") (ho : s.online = true) :
    (∃ req, (handleChatSubmit s).2 = some req) ∧
    (handleChatSubmit s).1.chatHistory =
      s.chatHistory ++ [{ user_query := s.userQuery, ai_response := .null }] ∧
    (handleChatSubmit s).1.chatHistory.length = s.chatHistory.length + 1 ∧
    (handleChatSubmit s).1.chatHistory.take s.chatHistory.length = s.chatHistory := by
  rw [handleChatSubmit_accepted s hd hq ho]
  simp

/-- The append of C1 on a conversation of one turn. -/
theorem handleChatSubmit_appends_one_pending_turn_witness :
    (handleChatSubmit secondQuestion).1.chatHistory =
      [{ user_query := "Summarize", ai_response := .str "This paper discusses..." },
       { user_query := " What is dropout? ", ai_response := .null }] :=
  (handleChatSubmit_appends_one_pending_turn secondQuestion (by decide) (by decide) rfl).2.1

/-- C5: when the document or the query is empty or whitespace-only after trimming,
`handleChatSubmit` issues no request and changes nothing but the error message, which
becomes the validation message; conversation, query input, document input and loading flag
keep their values. -/
theorem handleChatSubmit_rejects_blank_input (s : State)
    (h : trim s.documentText = "" ∨ trim s.userQuery = "") :
    handleChatSubmit s =
      ({ s with error := "Please paste a document and enter a query." }, none) ∧
    (handleChatSubmit s).1.chatHistory = s.chatHistory ∧
    (handleChatSubmit s).1.userQuery = s.userQuery ∧
    (handleChatSubmit s).1.documentText = s.documentText ∧
    (handleChatSubmit s).1.loading = s.loading := by
  have hc : (trim s.documentText == "" || trim s.userQuery == "") = true := by
    rcases h with h | h <;> simp [h]
  simp [handleChatSubmit, hc]

/-- The rejection of C5 on a whitespace-only query. -/
theorem handleChatSubmit_rejects_blank_input_witness :
    handleChatSubmit { secondQuestion with userQuery := " \t\n " } =
      ({ secondQuestion with userQuery := " \t\n ",
                             error := "Please paste a document and enter a query." }, none) :=
  (handleChatSubmit_rejects_blank_input { secondQuestion with userQuery := " \t\n " }
    (Or.inr (by decide))).1

/-- C6, as stated, fails: offline with an empty query the surfaced error is the validation
message, not the offline message, because the emptiness guard of `handleChatSubmit` comes
first. -/
theorem offline_blank_query_gets_validation_message :
    (scenario false).online = false ∧
    (handleChatSubmit { scenario false with userQuery := "" }).1.error =
      "Please paste a document and enter a query." ∧
    (handleChatSubmit { scenario false with userQuery := "" }).1.error ≠
      "No internet connection detected. Please check your network." := by
  decide

/-- C6, amended: every call of `handleChatSubmit` made while offline issues no request and
leaves the conversation unchanged; when the document and the query are both non-empty after
trimming the surfaced error is exactly the offline message. -/
theorem handleChatSubmit_offline_rejected (s : State) (ho : s.online = false) :
    (handleChatSubmit s).2 = none ∧
    (handleChatSubmit s).1.chatHistory = s.chatHistory ∧
    (trim s.documentText ≠ "" → trim s.userQuery ≠ "" →
      handleChatSubmit s =
        ({ s with error := "No internet connection detected. Please check your network." },
         none)) := by
  by_cases hc : (trim s.documentText == "" || trim s.userQuery == "") = true
  · refine ⟨by simp [handleChatSubmit, hc], by simp [handleChatSubmit, hc], ?_⟩
    intro hd hq
    simp [hd, hq] at hc
  · simp [handleChatSubmit, hc, ho]

/-- The offline rejection of C6 in the scenario of the specification. -/
theorem handleChatSubmit_offline_rejected_witness :
    handleChatSubmit (scenario false) =
      ({ scenario false with
         error := "No internet connection detected. Please check your network." }, none) :=
  (handleChatSubmit_offline_rejected (scenario false) rfl).2.2 (by decide) (by decide)

lemma elementTexts_append (a b : List JsVal) :
    elementTexts (a ++ b) = elementTexts a ++ elementTexts b := by
  induction a with
  | nil => rfl
  | cons x a ih =>
    show elementTexts (x :: (a ++ b)) = elementTexts (x :: a) ++ elementTexts b
    simp only [elementTexts, ih, List.cons_append]

lemma elementTexts_entries (h : List Turn) :
    elementTexts (h.map fun item =>
      JsVal.obj [("user_query", .str item.user_query), ("ai_response", item.ai_response)]) =
    h.map entryText := by
  induction h with
  | nil => rfl
  | cons t h ih =>
    simp only [List.map_cons, elementTexts, ih, jsonStringify, memberTexts, entryText,
      Option.getD_some, List.cons.injEq, and_true]

/-- C8, as stated, fails: after a first question answered by a 200 reply `{}` the first
turn has `ai_response = undefined`, and in the body of the next `/api/chat` request its
entry carries the field `user_query` only, not the pair `{user_query, ai_response}`. -/
theorem undefined_answer_left_out_of_request :
    (run v8 (World.initial true) emptyAnswerThenAskAgain).map
        (fun w => (w.ui.chatHistory.map fun t => (t.user_query, jsonStringify t.ai_response),
                   w.inflight.map fun p => p.request.body)) =
      some ([("Summarize", none), ("What is dropout?", some "null")],
            [some ("\x7b\"document_text\":\"Deep learning paper...\"," ++
                   "\"user_query\":\"What is dropout?\"," ++
                   "\"chat_history\":[\x7b\"user_query\":\"Summarize\"\x7d," ++
                   "\x7b\"user_query\":\"What is dropout?\",\"ai_response\":null\x7d]\x7d")]) := by
  rfl

/-- C8, amended: for an accepted submission the body of the `/api/chat` request is the JSON
text of an object with `document_text` and `user_query` as entered (untrimmed) and a
`chat_history` of one more entry than the conversation: for each old turn in order the
object with its `user_query` and its `ai_response` (the member `ai_response` is left out
when the turn's `ai_response` is `undefined`), then the pending turn
`{user_query, ai_response: null}`; no entry carries another field. -/
theorem chat_request_body_text (s : State)
    (hd : trim s.documentText ≠ "") (hq : trim s.userQuery ≠ "") (ho : s.online = true) :
    ∃ entries : List String,
      (handleChatSubmit s).2 =
        some { url := "/api/chat",
               body := some (objectText
                 [memberText "document_text" (quoteJSONString s.documentText),
                  memberText "user_query" (quoteJSONString s.userQuery),
                  memberText "chat_history" (arrayText entries)]) } ∧
      entries.length = s.chatHistory.length + 1 ∧
      entries =
        s.chatHistory.map entryText ++
        [objectText [memberText "user_query" (quoteJSONString s.userQuery),
                     memberText "ai_response" "null"]] := by
  refine ⟨s.chatHistory.map entryText ++
    [objectText [memberText "user_query" (quoteJSONString s.userQuery),
                 memberText "ai_response" "null"]], ?_, by simp, rfl⟩
  rw [handleChatSubmit_accepted s hd hq ho]
  simp only [chatRequestBody, jsonStringify, memberTexts, List.map_append, List.map_cons,
    List.map_nil, elementTexts_append, elementTexts_entries, elementTexts, Option.getD_some]

/-- The request of C8 for a second question after a completed turn. -/
theorem chat_request_body_text_witness :
    ∃ entries : List String,
      (handleChatSubmit secondQuestion).2 =
        some { url := "/api/chat",
               body := some (objectText
                 [memberText "document_text" (quoteJSONString "Deep learning paper..."),
                  memberText "user_query" (quoteJSONString " What is dropout? "),
                  memberText "chat_history" (arrayText entries)]) } ∧
      entries.length = 2 ∧
      entries =
        [entryText { user_query := "Summarize", ai_response := .str "This paper discusses..." },
         objectText [memberText "user_query" (quoteJSONString " What is dropout? "),
                     memberText "ai_response" "null"]] :=
  chat_request_body_text secondQuestion (by decide) (by decide) rfl

/-! ## The continuation of `handleChatSubmit` -/

lemma lastRenders_append (c : List Turn) (t : Turn) :
    (c ++ [t]).getLast?.all messageRenders = messageRenders t := by
  simp

lemma updateLast_append (rt : Runtime) (data r : JsVal) (c : List Turn) (t : Turn)
    (h : getField rt data "response" = .ok r) :
    updateLast rt data (c ++ [t]) = some (c ++ [{ t with ai_response := r }]) := by
  simp [updateLast, h]

lemma sliceOffLast_append (c : List Turn) (t : Turn) : sliceOffLast (c ++ [t]) = c := by
  simp [sliceOffLast]

lemma awaitChat_failed (rt : Runtime) (res : FetchResult) (h : res.failed = true) :
    ∃ m, awaitChat rt res = .error m := by
  cases res with
  | rejected m => exact ⟨m, rfl⟩
  | response status json =>
    refine ⟨notOkMessage rt status json, ?_⟩
    simp only [FetchResult.failed] at h
    simp [awaitChat, h]

/-- C2: when the reply to an accepted submission is a 2xx whose body is an object with
`response: r`, the conversation after the reply has the length it had after the optimistic
append, its last turn is the submitted query with `ai_response = r`, and the earlier turns
are unchanged. -/
theorem successful_reply_completes_last_turn (rt : Runtime) (s : State)
    (hd : trim s.documentText ≠ "") (hq : trim s.userQuery ≠ "") (ho : s.online = true)
    (status : Nat) (fields : List (String × JsVal)) (r : String)
    (hok : responseOk status = true) (hr : fields.lookup "response" = some (.str r)) :
    ∃ s2, settleChat rt (.response status (.ok (.obj fields))) (handleChatSubmit s).1 = some s2 ∧
      s2.chatHistory = s.chatHistory ++ [{ user_query := s.userQuery, ai_response := .str r }] ∧
      s2.chatHistory.length = (handleChatSubmit s).1.chatHistory.length ∧
      s2.chatHistory.getLast? = some { user_query := s.userQuery, ai_response := .str r } ∧
      s2.chatHistory.take s.chatHistory.length = s.chatHistory := by
  rw [handleChatSubmit_accepted s hd hq ho]
  have hg : getField rt (.obj fields) "response" = .ok (.str r) := by simp [getField, hr]
  simp [settleChat, awaitChat, hok, updateLast_append rt _ _ _ _ hg, messageRenders, childRenders]

/-- The success scenario of the specification. -/
theorem successful_reply_completes_last_turn_witness :
    ∃ s2, settleChat v8 (.response 200 (.ok (.obj [("response", .str "This paper discusses...")])))
        (handleChatSubmit (scenario true)).1 = some s2 ∧
      s2.chatHistory = [{ user_query := "Summarize", ai_response := .str "This paper discusses..." }] :=
  (successful_reply_completes_last_turn v8 (scenario true) (by decide) (by decide) rfl 200
    [("response", .str "This paper discusses...")] "This paper discusses..." (by decide) rfl).imp
    fun _ h => ⟨h.1, h.2.1⟩

/-- C3: when the `/api/chat` call of an accepted submission fails (the `fetch` rejects, or
the status is non-2xx), the continuation surfaces an error and the conversation afterwards
equals the conversation before the submission: the appended turn is removed, nothing else
changes, the length is the old length. -/
theorem failed_reply_rolls_back (rt : Runtime) (s : State)
    (hd : trim s.documentText ≠ "") (hq : trim s.userQuery ≠ "") (ho : s.online = true)
    (res : FetchResult) (hfail : res.failed = true) :
    ∃ s2 m, settleChat rt res (handleChatSubmit s).1 = some s2 ∧
      s2.chatHistory = s.chatHistory ∧
      s2.chatHistory.length = s.chatHistory.length ∧
      s2.error = "Failed to get insights: " ++ m ∧
      s2.loading = false := by
  obtain ⟨m, hm⟩ := awaitChat_failed rt res hfail
  rw [handleChatSubmit_accepted s hd hq ho]
  simp only [settleChat, hm, sliceOffLast_append]
  exact ⟨_, m, rfl, rfl, rfl, rfl, rfl⟩

/-- The rollback of C3 after a rejected `fetch`. -/
theorem failed_reply_rolls_back_witness :
    ∃ s2 m, settleChat v8 (.rejected "Failed to fetch") (handleChatSubmit secondQuestion).1 = some s2 ∧
      s2.chatHistory = secondQuestion.chatHistory ∧
      s2.chatHistory.length = secondQuestion.chatHistory.length ∧
      s2.error = "Failed to get insights: " ++ m ∧
      s2.loading = false :=
  failed_reply_rolls_back v8 secondQuestion (by decide) (by decide) rfl (.rejected "Failed to fetch")
    rfl

/-- C4, as stated, fails: a 200 reply whose body is the JSON object `{}` is not treated as a
failure. No error is surfaced, the appended turn stays, and its `ai_response` becomes
`undefined`, which is neither `null` nor a text. -/
theorem reply_without_response_field_is_accepted :
    settleChat v8 (.response 200 (.ok (.obj []))) (handleChatSubmit (scenario true)).1 =
      some { documentText := "Deep learning paper...", userQuery := "",
             chatHistory := [{ user_query := "Summarize", ai_response := .undefined }],
             loading := false, error := "", apiKey := "", apiKeySetSuccess := false,
             online := true } ∧
    (scenario true).chatHistory = [] := by
  exact ⟨rfl, rfl⟩

/-- C4, amended: a 2xx reply whose body does not parse as JSON is treated as a failure, the
error is surfaced and the appended turn removed, so the conversation reverts; a 2xx reply
whose body parses to a JSON object without a `response` field is not treated as a failure,
the appended turn stays with `ai_response = undefined` and no error is surfaced. -/
theorem malformed_reply_handling (rt : Runtime) (s : State)
    (hd : trim s.documentText ≠ "") (hq : trim s.userQuery ≠ "") (ho : s.online = true)
    (status : Nat) (hok : responseOk status = true) :
    (∀ m, settleChat rt (.response status (.error m)) (handleChatSubmit s).1 =
      some { (handleChatSubmit s).1 with
             error := "Failed to get insights: " ++ m, chatHistory := s.chatHistory,
             loading := false }) ∧
    (∀ fields, fields.lookup "response" = none →
      settleChat rt (.response status (.ok (.obj fields))) (handleChatSubmit s).1 =
        some { (handleChatSubmit s).1 with
               chatHistory := s.chatHistory ++
                 [{ user_query := s.userQuery, ai_response := .undefined }],
               loading := false }) ∧
    (handleChatSubmit s).1.error = "" := by
  rw [handleChatSubmit_accepted s hd hq ho]
  refine ⟨fun m => ?_, fun fields hf => ?_, rfl⟩
  · simp [settleChat, awaitChat, hok, sliceOffLast_append]
  · have hg : getField rt (.obj fields) "response" = .ok .undefined := by simp [getField, hf]
    simp [settleChat, awaitChat, hok, updateLast_append rt _ _ _ _ hg, messageRenders, truthy]

/-- The two cases of C4 after a second question: a 200 reply that is not JSON, and a 200
reply `{"answer": "..."}`. -/
theorem malformed_reply_handling_witness :
    settleChat v8 (.response 200 (.error "Unexpected token < in JSON at position 0"))
        (handleChatSubmit secondQuestion).1 =
      some { (handleChatSubmit secondQuestion).1 with
             error := "Failed to get insights: " ++ "Unexpected token < in JSON at position 0",
             chatHistory := secondQuestion.chatHistory, loading := false } ∧
    settleChat v8 (.response 200 (.ok (.obj [("answer", .str "It is a regulariser.")])))
        (handleChatSubmit secondQuestion).1 =
      some { (handleChatSubmit secondQuestion).1 with
             chatHistory := secondQuestion.chatHistory ++
               [{ user_query := " What is dropout? ", ai_response := .undefined }],
             loading := false } :=
  ⟨(malformed_reply_handling v8 secondQuestion (by decide) (by decide) rfl 200 (by decide)).1
      "Unexpected token < in JSON at position 0",
   (malformed_reply_handling v8 secondQuestion (by decide) (by decide) rfl 200 (by decide)).2.1
      [("answer", .str "It is a regulariser.")] rfl⟩

/-- C7, as stated, fails: with status 500 and body `{error: ""}` the surfaced text is the
generic status message, not the prefix followed by the empty message; and with status 500
and no body the surfaced text carries the message of the rejected `response.json()`, not
the generic status message. -/
theorem error_text_counterexamples :
    (settleChat v8 (.response 500 (.ok (.obj [("error", .str "")])))
        (handleChatSubmit (scenario true)).1).map State.error =
      some "Failed to get insights: HTTP error! status: 500" ∧
    "Failed to get insights: HTTP error! status: 500" ≠ "Failed to get insights: " ++ "" ∧
    (settleChat v8 (.response 500 (.error "Unexpected end of JSON input"))
        (handleChatSubmit (scenario true)).1).map State.error =
      some "Failed to get insights: Unexpected end of JSON input" ∧
    "Failed to get insights: Unexpected end of JSON input" ≠
      "Failed to get insights: HTTP error! status: 500" := by
  decide

/-- C7, amended: for a reply with non-2xx status `n` whose body parses to a JSON object, the
surfaced text is `Failed to get insights: ` followed by `s` when the `error` field is a
non-empty string `s`, and it is `Failed to get insights: HTTP error! status: n` when the
object has no `error` field or its `error` is the empty string. -/
theorem error_text_of_non_2xx_reply (rt : Runtime) (st : State) (n : Nat)
    (fields : List (String × JsVal)) (hn : responseOk n = false) :
    (∀ m, m ≠ "" → fields.lookup "error" = some (.str m) →
      (settleChat rt (.response n (.ok (.obj fields))) st).map State.error =
        some ("Failed to get insights: " ++ m)) ∧
    (fields.lookup "error" = none ∨ fields.lookup "error" = some (.str "") →
      (settleChat rt (.response n (.ok (.obj fields))) st).map State.error =
        some ("Failed to get insights: HTTP error! status: " ++ toString n)) := by
  have hp : "Failed to get insights: HTTP error! status: " =
      "Failed to get insights: " ++ "HTTP error! status: " := by decide
  refine ⟨fun m hm he => ?_, fun he => ?_⟩
  · simp [settleChat, awaitChat, hn, notOkMessage, getField, he, truthy, hm, toStr]
  · rw [hp, String.append_assoc]
    rcases he with he | he <;>
      simp [settleChat, awaitChat, hn, notOkMessage, getField, he, truthy, toStr]

/-- The failure scenario of the specification: status 500 with `error: "model unavailable"`. -/
theorem error_text_of_non_2xx_reply_witness :
    (settleChat v8 (.response 500 (.ok (.obj [("error", .str "model unavailable")])))
        (handleChatSubmit (scenario true)).1).map State.error =
      some "Failed to get insights: model unavailable" :=
  (error_text_of_non_2xx_reply v8 (handleChatSubmit (scenario true)).1 500
    [("error", .str "model unavailable")] (by decide)).1 "model unavailable" (by decide) rfl

/-! ## The event loop -/

lemma phase_idle (P : List Turn → Prop) (w : World) (hw : Phase P w)
    (hl : w.ui.loading = false) : w.inflight = [] ∧ P w.ui.chatHistory := by
  rcases hw with ⟨_, h⟩ | ⟨h, _⟩ | ⟨h, _⟩
  · exact h
  · rw [hl] at h; cases h
  · rw [hl] at h; cases h

lemma awaitChat_ok (rt : Runtime) (res : FetchResult) (data : JsVal)
    (h : awaitChat rt res = .ok data) :
    ∃ status, res = .response status (.ok data) ∧ responseOk status = true := by
  cases res with
  | rejected m => simp [awaitChat] at h
  | response status json =>
    cases hok : responseOk status with
    | false => simp [awaitChat, hok] at h
    | true =>
      simp only [awaitChat, hok] at h
      exact ⟨status, by rw [show json = .ok data from h], hok⟩

lemma phase_step (rt : Runtime) (P : List Turn → Prop) (w w' : World) (e : Event)
    (hw : Phase P w) (hs : step rt w e = some w')
    (hP : ∀ c q i status data r, e = .settle i (.response status (.ok data)) →
      responseOk status = true → getField rt data "response" = .ok r →
      messageRenders { user_query := q, ai_response := r } = true → P c →
      P (c ++ [{ user_query := q, ai_response := r }])) : Phase P w' := by
  cases e with
  | changeDocument v =>
    simp only [step] at hs
    split at hs <;> cases hs
    · exact hw
    · exact hw
  | changeQuery v =>
    simp only [step] at hs
    split at hs <;> cases hs
    · exact hw
    · exact hw
  | changeApiKey v =>
    simp only [step] at hs
    split at hs <;> cases hs
    · exact hw
    · exact hw
  | online => cases hs; exact hw
  | offline => cases hs; exact hw
  | advance dt => cases hs; exact hw
  | timeout i =>
    simp only [step] at hs
    split at hs
    · cases hs; exact hw
    · split at hs <;> cases hs
      · exact hw
      · exact hw
  | clickSetApiKey =>
    cases hl : w.ui.loading with
    | true => simp [step, hl] at hs; subst hs; exact hw
    | false =>
      obtain ⟨hin, hp⟩ := phase_idle P w hw hl
      by_cases hk : (trim w.ui.apiKey == "") = true
      · simp only [step, hl, handleSetApiKey, hk] at hs
        cases hs
        exact Or.inl ⟨rfl, hin, hp⟩
      · simp only [step, hl, handleSetApiKey, hk] at hs
        cases hs
        exact Or.inr (Or.inl ⟨rfl, _, by rw [hin]; rfl, hp⟩)
  | submitChat =>
    cases hl : w.ui.loading with
    | true => simp [step, hl] at hs; subst hs; exact hw
    | false =>
      obtain ⟨hin, hp⟩ := phase_idle P w hw hl
      by_cases hk : (trim w.ui.documentText == "" || trim w.ui.userQuery == "") = true
      · simp only [step, hl, handleChatSubmit, hk] at hs
        cases hs
        exact Or.inl ⟨rfl, hin, hp⟩
      · by_cases ho : (!w.ui.online) = true
        · simp only [step, hl, handleChatSubmit, hk, ho] at hs
          cases hs
          exact Or.inl ⟨rfl, hin, hp⟩
        · simp only [step, hl, handleChatSubmit, hk, ho] at hs
          cases hs
          exact Or.inr (Or.inr ⟨rfl, _, _, _, by rw [hin]; rfl, rfl, hp⟩)
  | settle i res =>
    simp only [step] at hs
    rcases hw with ⟨hl, hin, hp⟩ | ⟨hl, req, hin, hp⟩ | ⟨hl, req, q, c, hin, hc, hp⟩
    · simp only [hin, List.getElem?_nil] at hs
      cases hs
      exact Or.inl ⟨hl, hin, hp⟩
    · cases i with
      | succ j => simp [hin] at hs; subst hs; exact Or.inr (Or.inl ⟨hl, req, hin, hp⟩)
      | zero =>
        cases ha : awaitSetApiKey rt res with
        | ok u =>
          simp only [hin, List.getElem?_cons_zero, settleSetApiKey, ha] at hs
          cases hs
          exact Or.inl ⟨rfl, rfl, hp⟩
        | error m =>
          simp only [hin, List.getElem?_cons_zero, settleSetApiKey, ha] at hs
          cases hs
          exact Or.inl ⟨rfl, rfl, hp⟩
    · cases i with
      | succ j =>
        simp [hin] at hs; subst hs; exact Or.inr (Or.inr ⟨hl, req, q, c, hin, hc, hp⟩)
      | zero =>
        cases ha : awaitChat rt res with
        | error m =>
          simp only [hin, List.getElem?_cons_zero, settleChat, ha, hc, sliceOffLast_append] at hs
          cases hs
          exact Or.inl ⟨rfl, rfl, hp⟩
        | ok data =>
          obtain ⟨status, hres, hok⟩ := awaitChat_ok rt res data ha
          cases hg : getField rt data "response" with
          | error m =>
            simp [hin, settleChat, ha, updateLast, hg, hc] at hs
          | ok r =>
            cases hm : messageRenders { user_query := q, ai_response := r } with
            | false =>
              simp [hin, settleChat, ha, hc, updateLast_append rt data r c _ hg,
                lastRenders_append, hm] at hs
            | true =>
              simp only [hin, List.getElem?_cons_zero, settleChat, ha, hc,
                updateLast_append rt data r c _ hg, lastRenders_append, hm, if_true] at hs
              cases hs
              exact Or.inl ⟨rfl, rfl, hP c q 0 status data r (by rw [hres]) hok hg hm hp⟩

/-- Running allowed events from a reachable world ends in a reachable world. -/
lemma reachable_run (rt : Runtime) (allowed : Event → Prop) (es : List Event) :
    ∀ w w', Reachable rt allowed w → (∀ e ∈ es, allowed e) → run rt w es = some w' →
      Reachable rt allowed w' := by
  induction es with
  | nil =>
    intro w w' hw _ hr
    simp only [run, Option.some.injEq] at hr
    exact hr ▸ hw
  | cons e es ih =>
    intro w w' hw hall hr
    simp only [run] at hr
    cases hs : step rt w e with
    | none => simp [hs] at hr
    | some w1 =>
      simp only [hs] at hr
      exact ih w1 w' (.next e hw (hall e (List.mem_cons_self _ _)) hs)
        (fun e' he' => hall e' (List.mem_cons_of_mem _ he')) hr

lemma reachable_phase_any (rt : Runtime) (w : World) (h : Reachable rt (fun _ => True) w) :
    Phase (fun _ => True) w := by
  induction h with
  | initial b => exact Or.inl ⟨rfl, rfl, trivial⟩
  | next e _ _ hs ih => exact phase_step rt _ _ _ e ih hs (fun _ _ _ _ _ _ _ _ _ _ _ => trivial)

/-- Every entry of a reachable conversation is accepted by the render, so after a reply
only the entry just written can make the render throw. -/
lemma reachable_history_renders (rt : Runtime) (w : World)
    (h : Reachable rt (fun _ => True) w) : ∀ t ∈ w.ui.chatHistory, messageRenders t = true := by
  have hp : Phase (fun c => ∀ t ∈ c, messageRenders t = true) w := by
    induction h with
    | initial b => exact Or.inl ⟨rfl, rfl, fun t ht => by cases ht⟩
    | next e _ _ hs ih =>
      refine phase_step rt _ _ _ e ih hs ?_
      intro c q i status data r _ _ _ hm hc t ht
      rcases List.mem_append.1 ht with h | h
      · exact hc t h
      · rw [List.mem_singleton.1 h]; exact hm
  rcases hp with ⟨_, _, hp⟩ | ⟨_, _, _, hp⟩ | ⟨_, _, q, c, _, hc, hp⟩
  · exact hp
  · exact hp
  · intro t ht
    rw [hc] at ht
    rcases List.mem_append.1 ht with h | h
    · exact hp t h
    · rw [List.mem_singleton.1 h]; rfl

lemma answered_append (c : List Turn) (q : String) (r : JsVal) (hc : Answered c)
    (hr : r ≠ .null) : Answered (c ++ [{ user_query := q, ai_response := r }]) := by
  intro t ht
  rcases List.mem_append.1 ht with h | h
  · exact hc t h
  · rw [List.mem_singleton.1 h]
    cases r <;> first | rfl | exact absurd rfl hr

lemma reachable_phase_answered (rt : Runtime) (w : World)
    (h : Reachable rt (noNullAnswer rt) w) : Phase Answered w := by
  induction h with
  | initial b => exact Or.inl ⟨rfl, rfl, fun t ht => by cases ht⟩
  | next e _ ha hs ih =>
    refine phase_step rt _ _ _ e ih hs ?_
    intro c q i status data r he hok hg _ hc
    refine answered_append c q r hc ?_
    intro hr
    exact ha i status data he hok (by rw [hg, hr])

lemma nullCount_answered (c : List Turn) (hc : Answered c) : nullCount c = 0 := by
  simp only [nullCount, List.length_eq_zero, List.filter_eq_nil_iff]
  intro t ht
  simp [hc t ht]

lemma nullCount_phase (w : World) (h : Phase Answered w) : nullCount w.ui.chatHistory ≤ 1 := by
  rcases h with ⟨_, _, hp⟩ | ⟨_, _, _, hp⟩ | ⟨_, _, q, c, _, hc, hp⟩
  · rw [nullCount_answered _ hp]; exact Nat.zero_le _
  · rw [nullCount_answered _ hp]; exact Nat.zero_le _
  · have h0 := nullCount_answered c hp
    simp only [nullCount] at h0 ⊢
    rw [hc, List.filter_append, List.length_append, h0]
    simp [isNull]

/-- C9, amended: in every state reachable from the first render at most one request is in
flight, none while `loading` is off, and while a chat submission is in flight the
conversation is non-empty and its last turn is the pending turn of that submission, so the
write at index `length - 1` is in bounds and hits that turn; and when no 2xx reply carries
`response: null`, at most one turn has `ai_response = null`. -/
theorem single_submission_in_flight (rt : Runtime) (w : World) :
    (Reachable rt (fun _ => True) w →
      w.inflight.length ≤ 1 ∧ (w.ui.loading = false → w.inflight = []) ∧
      ∀ req q, Pending.chat req q ∈ w.inflight →
        w.ui.chatHistory ≠ [] ∧
        w.ui.chatHistory.getLast? = some { user_query := q, ai_response := .null } ∧
        ∀ data r, getField rt data "response" = .ok r →
          updateLast rt data w.ui.chatHistory =
            some (w.ui.chatHistory.dropLast ++ [{ user_query := q, ai_response := r }])) ∧
    (Reachable rt (noNullAnswer rt) w → nullCount w.ui.chatHistory ≤ 1) := by
  refine ⟨fun h => ?_, fun h => nullCount_phase w (reachable_phase_answered rt w h)⟩
  rcases reachable_phase_any rt w h with ⟨hl, hin, _⟩ | ⟨hl, req, hin, _⟩ | ⟨hl, req, q, c, hin, hc, _⟩
  · simp [hin]
  · simp [hin, hl]
  · refine ⟨by simp [hin], by simp [hl], ?_⟩
    intro req' q' hmem
    rw [hin, List.mem_singleton] at hmem
    cases hmem
    refine ⟨by simp [hc], by simp [hc], ?_⟩
    intro data r hg
    rw [hc, updateLast_append rt data r c _ hg]
    simp

/-- The invariant of C9 at the world reached by one submission. -/
theorem single_submission_in_flight_witness :
    askedOnce.inflight.length ≤ 1 ∧ nullCount askedOnce.ui.chatHistory ≤ 1 :=
  ⟨((single_submission_in_flight v8 askedOnce).1
      (reachable_run v8 _ askOnce _ _ (.initial true) (fun _ _ => trivial) rfl)).1,
   (single_submission_in_flight v8 askedOnce).2
      (reachable_run v8 _ askOnce _ _ (.initial true)
        (fun e he => by
          simp only [askOnce, List.mem_cons, List.mem_singleton, List.not_mem_nil, or_false] at he
          rcases he with rfl | rfl | rfl <;> (intro i status data h; cases h)) rfl)⟩

/-- C9, as stated, fails: when the first question is answered by a 200 reply with
`response: null` and a second question is submitted, the reachable conversation has two
turns with `ai_response = null`. -/
theorem two_null_turns_reachable :
    ∃ w, Reachable v8 (fun _ => True) w ∧ run v8 (World.initial true) nullAnswerThenAskAgain = some w ∧
      w.ui.chatHistory =
        [{ user_query := "Summarize", ai_response := .null },
         { user_query := "What is dropout?", ai_response := .null }] ∧
      nullCount w.ui.chatHistory = 2 ∧ ¬ nullCount w.ui.chatHistory ≤ 1 := by
  refine ⟨_, reachable_run v8 _ nullAnswerThenAskAgain _ _ (.initial true) (fun _ _ => trivial) rfl,
    rfl, rfl, rfl, by decide⟩

/-- C10, as stated, fails: after a success at time 0 and a second success at time 2500 two
timers are left, and at time 3000 the timer of the first call clears the success flag that
the second call set 500 ms earlier, while the timer of the second call is still to come. -/
theorem stale_timer_clears_second_success :
    (run v8 (World.initial true) setKeyTwice).map
        (fun w => (w.ui.apiKeySetSuccess, w.timers, w.now)) = some (true, [3000, 5500], 2500) ∧
    (run v8 (World.initial true) (setKeyTwice ++ [.advance 500, .timeout 0])).map
        (fun w => (w.ui.apiKeySetSuccess, w.timers, w.now)) = some (false, [5500], 3000) := by
  decide

/-- C10, amended: with a key that is non-empty after trimming and a 2xx answer both times,
each call of `handleSetApiKey` ends with `apiKeySetSuccess = true`, `error = ""`,
`loading = false` and nothing in flight, and the state of `App` after the second call equals
the state after the first. Each call starts its own 3000 ms timer and none is cancelled:
when the timer of the first call has not run before the second call succeeds, it is still
there after the second call, and when it runs it clears the success flag set by the second
call while the timer of the second call is still to come. -/
theorem handleSetApiKey_twice (rt : Runtime) (w : World)
    (hl : w.ui.loading = false) (hin : w.inflight = []) (hk : trim w.ui.apiKey ≠ "")
    (n1 n2 : Nat) (j1 j2 : Except String JsVal)
    (h1 : responseOk n1 = true) (h2 : responseOk n2 = true)
    (dt dt' : Nat) (hdue : 3000 ≤ dt + dt') :
    ∃ w1 w2 w3,
      run rt w [.clickSetApiKey, .settle 0 (.response n1 j1)] = some w1 ∧
      run rt w1 [.advance dt, .clickSetApiKey, .settle 0 (.response n2 j2)] = some w2 ∧
      run rt w2 [.advance dt', .timeout w.timers.length] = some w3 ∧
      w1.ui = { w.ui with loading := false, error := "", apiKeySetSuccess := true } ∧
      w2.ui = w1.ui ∧
      w1.inflight = [] ∧ w2.inflight = [] ∧
      w1.timers = w.timers ++ [w.now + 3000] ∧
      w2.timers = w.timers ++ [w.now + 3000, w.now + dt + 3000] ∧
      w2.now = w.now + dt ∧
      w3.ui.apiKeySetSuccess = false ∧
      w3.timers = w.timers ++ [w.now + dt + 3000] ∧
      w3.now = w.now + dt + dt' := by
  have hk' : (trim w.ui.apiKey == "") = false := by simpa using hk
  refine ⟨{ w with ui := { w.ui with loading := false, error := "", apiKeySetSuccess := true },
                    inflight := [], timers := w.timers ++ [w.now + 3000] },
          { w with ui := { w.ui with loading := false, error := "", apiKeySetSuccess := true },
                    inflight := [], timers := w.timers ++ [w.now + 3000, w.now + dt + 3000],
                    now := w.now + dt },
          { w with ui := { w.ui with loading := false, error := "", apiKeySetSuccess := false },
                    inflight := [], timers := w.timers ++ [w.now + dt + 3000],
                    now := w.now + dt + dt' },
          ?_, ?_, ?_, rfl, rfl, rfl, rfl, rfl, rfl, rfl, rfl, rfl, rfl⟩
  · simp [run, step, hl, hin, handleSetApiKey, hk', settleSetApiKey, awaitSetApiKey, h1]
  · simp [run, step, handleSetApiKey, hk', settleSetApiKey, awaitSetApiKey, h2]
  · have hd : w.now + 3000 ≤ w.now + dt + dt' := by omega
    have hg : (w.timers ++ [w.now + 3000, w.now + dt + 3000])[w.timers.length]? =
        some (w.now + 3000) := by
      rw [List.getElem?_append_right (le_refl _)]
      simp
    simp only [run, step, hg, hd, if_true]
    simp [List.eraseIdx_append_of_length_le]

/-- The calls of C10 from `keyTyped`: successes at 0 ms and 2500 ms, the first timer running
at 3000 ms. -/
theorem handleSetApiKey_twice_witness :
    ∃ w1 w2 w3,
      run v8 keyTyped [.clickSetApiKey, .settle 0 (.response 200 (.ok (.obj [])))] = some w1 ∧
      run v8 w1 [.advance 2500, .clickSetApiKey,
                 .settle 0 (.response 204 (.error "Unexpected end of JSON input"))] = some w2 ∧
      run v8 w2 [.advance 500, .timeout keyTyped.timers.length] = some w3 ∧
      w1.ui = { keyTyped.ui with loading := false, error := "", apiKeySetSuccess := true } ∧
      w2.ui = w1.ui ∧
      w1.inflight = [] ∧ w2.inflight = [] ∧
      w1.timers = keyTyped.timers ++ [keyTyped.now + 3000] ∧
      w2.timers = keyTyped.timers ++ [keyTyped.now + 3000, keyTyped.now + 2500 + 3000] ∧
      w2.now = keyTyped.now + 2500 ∧
      w3.ui.apiKeySetSuccess = false ∧
      w3.timers = keyTyped.timers ++ [keyTyped.now + 2500 + 3000] ∧
      w3.now = keyTyped.now + 2500 + 500 :=
  handleSetApiKey_twice v8 keyTyped rfl rfl (by decide) 200 204 (.ok (.obj []))
    (.error "Unexpected end of JSON input") (by decide) (by decide) 2500 500 (by decide)

end DocInsight
